import Mathlib

/-!
Shallow embedding of the epidemic simulator (Simulation_utilities.py,
Simulation_tests.py, Simulation_steps.py, main.py) and proofs about it.

Conventions of the embedding:
* numpy 0/1 indicator arrays over the agent index space become `Fin N → Bool`;
  the bitwise numpy operators `&`, `|`, `1 - x` on 0/1 arrays become `&&`, `||`,
  `!`; integer `arr - sub` (with `sub ⊆ arr` by construction) and `arr + add`
  (with `add` disjoint from `arr` under the partition invariant) become
  `arr && !sub` and `arr || add`.
* numpy float arrays (timers, probabilities, uniform draws) become `Fin N → ℚ`:
  every IEEE float is a rational, and the code does only field operations and
  comparisons on them (the one exception, the real-power degree sampler, is
  embedded over ℝ below).
* every `np.random.*` draw becomes an explicit oracle argument: a function
  giving the drawn value per agent.
* the multigraph becomes its adjacency matrix `Fin N → Fin N → ℕ` of edge
  multiplicities, exactly the `adj_mat` the code extracts from the graph.
-/

/-- Indicator array over the agent index space (numpy 0/1 int array). -/
abbrev Arr (N : ℕ) := Fin N → Bool

/-- Numeric array over the agent index space (numpy float array). -/
abbrev QArr (N : ℕ) := Fin N → ℚ

/-- Multigraph adjacency matrix: entry `i j` is the edge multiplicity. -/
abbrev AdjMat (N : ℕ) := Fin N → Fin N → ℕ

/-- config.EPSILON = 1e-10. -/
def EPSILON : ℚ := 1 / 10 ^ 10

/-- Simulation_utilities.number_of_edges_to_group: number of edges from each
node to nodes in `group_arr`, counting multiplicity, with the empty-group
performance short-circuit. -/
def number_of_edges_to_group {N : ℕ} (group_arr : Arr N) (adj_mat : AdjMat N) :
    Fin N → ℕ :=
  if ∀ j, group_arr j = false then fun _ => 0
  else fun i => ∑ j, adj_mat i j * (if group_arr j then 1 else 0)

/-- Simulation_utilities.individual_infection_probabilities.  The source
computes `1 - exp(log(1 - prob_infect) * connections)`, which its own comment
states is the analytic collapse `1 - (1 - p_infect)**n_connections`; for a
natural exponent that is exactly `1 - (1 - p)^c`, embedded here (for p = 1 and
c ≥ 1 numpy's `exp(-inf) = 0` likewise gives probability 1 = 1 - 0^c, and for
p = 1, c = 0 numpy's nan compares false in the later draw, matching
probability 0 = 1 - 0^0).  The `prob_infect == 0` branch is the source's
performance short-circuit that skips the edge count. -/
def individual_infection_probabilities {N : ℕ} (I_arr : Arr N) (prob_infect : ℚ)
    (adj_mat : AdjMat N) : QArr N :=
  if prob_infect = 0 then fun _ => 0
  else fun i => 1 - (1 - prob_infect) ^ (number_of_edges_to_group I_arr adj_mat i)

/-- Simulation_utilities.random_subset: `(np.random.random(shape) < sample_probs)
& indicator_arr`, with the uniform draw passed as the oracle `draw`. -/
def random_subset {N : ℕ} (indicator_arr : Arr N) (sample_probs : QArr N)
    (draw : QArr N) : Arr N :=
  fun i => decide (draw i < sample_probs i) && indicator_arr i

/-- Simulation_utilities.spread_to_neighbors.  `to_group = none` is the
source's `to_group=None` default meaning the whole population. -/
def spread_to_neighbors {N : ℕ} (from_group_arr : Arr N) (prob_spread : ℚ)
    (adj_mat : AdjMat N) (to_group : Option (Arr N)) (draw : QArr N) : Arr N :=
  let spread_probs := individual_infection_probabilities from_group_arr prob_spread adj_mat
  let tg := to_group.getD (fun _ => true)
  random_subset tg spread_probs draw

/-- Helper: membership in a spread result forces membership in the target group. -/
theorem spread_to_neighbors_subset {N : ℕ} (g : Arr N) (p : ℚ) (adj : AdjMat N)
    (tg : Arr N) (u : QArr N) (i : Fin N)
    (h : spread_to_neighbors g p adj (some tg) u i = true) : tg i = true := by
  simp only [spread_to_neighbors, random_subset, Option.getD_some,
    Bool.and_eq_true] at h
  exact h.2

/-- C1: the spread kernel affects an eligible target node exactly when its one
uniform draw falls below `1 - (1 - p)^c`, where `c` is the multiplicity-aware
count of its edges into the source set; a node outside the eligible-target set
is never in the returned affected set. -/
theorem spread_kernel_spec {N : ℕ} (from_group_arr : Arr N) (p : ℚ)
    (adj_mat : AdjMat N) (to_group : Arr N) (draw : QArr N)
    (hp0 : 0 ≤ p) (hp1 : p ≤ 1) (i : Fin N) :
    (spread_to_neighbors from_group_arr p adj_mat (some to_group) draw i = true ↔
      (to_group i = true ∧
        draw i < 1 - (1 - p) ^ (number_of_edges_to_group from_group_arr adj_mat i))) ∧
    (to_group i = false →
      spread_to_neighbors from_group_arr p adj_mat (some to_group) draw i = false) := by
  constructor
  · by_cases hp : p = 0
    · subst hp
      simp [spread_to_neighbors, random_subset, individual_infection_probabilities,
        and_comm]
    · simp [spread_to_neighbors, random_subset, individual_infection_probabilities,
        hp, and_comm]
  · intro h
    simp [spread_to_neighbors, random_subset, h]

/-- Witness for C1 at a concrete input: two nodes, one edge, p = 1/2. -/
theorem spread_kernel_spec_witness :
    (0:ℚ) ≤ 1/2 ∧ (1/2:ℚ) ≤ 1 ∧
    ((spread_to_neighbors (fun _ => true) (1/2) (fun _ _ => 1)
        (some (fun _ => true)) (fun _ => 0) (0 : Fin 1) = true ↔
      ((fun _ : Fin 1 => true) (0 : Fin 1) = true ∧
        (fun _ : Fin 1 => (0:ℚ)) (0 : Fin 1) < 1 - (1 - 1/2) ^
          (number_of_edges_to_group (fun _ => true) (fun _ _ => 1) (0 : Fin 1)))) ∧
    ((fun _ : Fin 1 => true) (0 : Fin 1) = false →
      spread_to_neighbors (fun _ => true) (1/2) (fun _ _ => 1)
        (some (fun _ => true)) (fun _ => 0) (0 : Fin 1) = false)) :=
  ⟨by norm_num, by norm_num,
    spread_kernel_spec (fun _ => true) (1/2) (fun _ _ => 1) (fun _ => true)
      (fun _ => 0) (by norm_num) (by norm_num) (0 : Fin 1)⟩

/-- C6: with per-edge probability 0 the spread kernel returns the empty set,
and its result is identical for any two adjacency matrices (the short-circuit
branch never reads the graph). -/
theorem spread_zero_short_circuit {N : ℕ} (from_group_arr : Arr N)
    (adj_mat adj_mat2 : AdjMat N) (to_group : Option (Arr N)) (draw : QArr N)
    (hdraw : ∀ i, 0 ≤ draw i) :
    (∀ i, spread_to_neighbors from_group_arr 0 adj_mat to_group draw i = false) ∧
    spread_to_neighbors from_group_arr 0 adj_mat to_group draw =
      spread_to_neighbors from_group_arr 0 adj_mat2 to_group draw := by
  refine ⟨fun i => ?_, rfl⟩
  simp [spread_to_neighbors, random_subset, individual_infection_probabilities,
    not_lt.mpr (hdraw i)]

/-- Witness for C6 at a concrete input: the two adjacency matrices differ. -/
theorem spread_zero_short_circuit_witness :
    (∀ i : Fin 2, (0:ℚ) ≤ (fun _ => (1/3:ℚ)) i) ∧
    ((∀ i, spread_to_neighbors (N := 2) (fun _ => true) 0 (fun _ _ => 5) none
        (fun _ => (1/3:ℚ)) i = false) ∧
      spread_to_neighbors (N := 2) (fun _ => true) 0 (fun _ _ => 5) none
          (fun _ => (1/3:ℚ)) =
        spread_to_neighbors (N := 2) (fun _ => true) 0 (fun _ _ => 0) none
          (fun _ => (1/3:ℚ))) :=
  ⟨fun _ => by norm_num,
    spread_zero_short_circuit (N := 2) (fun _ => true) (fun _ _ => 5) (fun _ _ => 0)
      none (fun _ => (1/3:ℚ)) (fun _ => by norm_num)⟩

/-- Simulation_utilities.get_gamma_distribution_params: `theta = std^2 / mean`,
`k = mean / theta`, returned as `(k, theta)`. -/
def get_gamma_distribution_params (mean std : ℚ) : ℚ × ℚ :=
  (mean / (std ^ 2 / mean), std ^ 2 / mean)

/-- Simulation_tests.tests_analyzed.  NOTE: the source body reads
`config.STEPS_PER_DAY` directly and ignores its own `steps_per_day` parameter;
`cfg_steps_per_day` is the module-level constant, `steps_per_day` the (unused)
parameter, kept for signature fidelity.  Returns `(new_TP_arr, T_result_left)`. -/
def tests_analyzed {N : ℕ} (T_result_left : QArr N) (T_result_positive_arr : Arr N)
    (steps_per_day cfg_steps_per_day : ℚ) : Arr N × QArr N :=
  let _ := steps_per_day
  let Tleft1 : QArr N := fun i => T_result_left i - 1 / cfg_steps_per_day
  let test_comes_back_arr : Arr N :=
    fun i => decide (Tleft1 i < EPSILON) && decide (Tleft1 i > -1)
  let new_TP_arr : Arr N := fun i => test_comes_back_arr i && T_result_positive_arr i
  let Tleft2 : QArr N := fun i => if test_comes_back_arr i then -1 else Tleft1 i
  (new_TP_arr, Tleft2)

/-- Simulation_tests.test_group.  Returns
`(T_result_left, T_result_positive_arr, n_tested)`. -/
def test_group {N : ℕ} (tested_arr carrier_arr : Arr N) (T_result_left : QArr N)
    (T_result_positive_arr : Arr N) (test_delay_time : ℚ) :
    QArr N × Arr N × ℕ :=
  (fun i => if tested_arr i then test_delay_time else T_result_left i,
   fun i => T_result_positive_arr i || (tested_arr i && carrier_arr i),
   ∑ i, (tested_arr i).toNat)

/-- Simulation_tests.symptomatics_tested.  Returns
`(T_result_left, T_result_positive_arr, n_infected_tested, new_symptomatic_tested_arr)`. -/
def symptomatics_tested {N : ℕ} (I_arr A_arr TP_arr new_TP_arr : Arr N)
    (T_result_left : QArr N) (T_result_positive_arr : Arr N)
    (prob_infected_detected test_delay_time : ℚ) (draw : QArr N) :
    QArr N × Arr N × ℕ × Arr N :=
  let cand := random_subset (fun i => I_arr i && !(A_arr i))
    (fun _ => prob_infected_detected) draw
  let pending_test_results_arr : Arr N := fun i => decide (T_result_left i > 0)
  let new_symptomatic_tested_arr : Arr N :=
    fun i => cand i && !(TP_arr i || new_TP_arr i || pending_test_results_arr i)
  let res := test_group new_symptomatic_tested_arr I_arr T_result_left
    T_result_positive_arr test_delay_time
  (res.1, res.2.1, res.2.2, new_symptomatic_tested_arr)

/-- Simulation_tests.general_population_tested.  Returns
`(T_result_left, T_result_positive_arr, n_general_tested)` plus, exposed for
the proofs, the internal `new_genpop_tested_arr` whose sum `n_general_tested` is. -/
def general_population_tested {N : ℕ} (E_arr I_arr TP_arr new_TP_arr : Arr N)
    (T_result_left : QArr N) (T_result_positive_arr : Arr N)
    (prob_exposed_detected test_delay_time : ℚ) (draw : QArr N) :
    QArr N × Arr N × ℕ × Arr N :=
  let pending_test_results_arr : Arr N := fun i => decide (T_result_left i > 0)
  let new_genpop_tested_arr := random_subset
    (fun i => !(TP_arr i || new_TP_arr i || pending_test_results_arr i))
    (fun _ => prob_exposed_detected) draw
  let carrier_arr : Arr N := fun i => E_arr i || I_arr i
  let res := test_group new_genpop_tested_arr carrier_arr T_result_left
    T_result_positive_arr test_delay_time
  (res.1, res.2.1, res.2.2, new_genpop_tested_arr)

/-- Simulation_utilities.contact_tracing.  Returns
`(new_Q_arr, T_result_left, T_result_positive_arr, n_neighbors_traced,
n_neighbors_tested)` plus, exposed for the proofs, the internal
`neighbors_tested` array (all-false on paths that test nobody). -/
def contact_tracing {N : ℕ} (E_arr I_arr TP_arr new_TP_arr : Arr N)
    (T_result_left : QArr N) (T_result_positive_arr : Arr N) (new_Q_arr : Arr N)
    (prob_neighbor_traced : ℚ) (quarantine_neighbors test_neighbors : Bool)
    (test_delay_time : ℚ) (adj_mat : AdjMat N) (draw : QArr N) :
    Arr N × QArr N × Arr N × ℕ × ℕ × Arr N :=
  if prob_neighbor_traced = 0 then
    (new_Q_arr, T_result_left, T_result_positive_arr, 0, 0, fun _ => false)
  else
    let neighbors_traced := spread_to_neighbors new_TP_arr prob_neighbor_traced
      adj_mat none draw
    let n_neighbors_traced := ∑ i, (neighbors_traced i).toNat
    let new_Q_arr1 := if quarantine_neighbors then
        (fun i => new_Q_arr i || (neighbors_traced i && !(new_TP_arr i || TP_arr i)))
      else new_Q_arr
    if test_neighbors then
      let carrier_arr : Arr N := fun i => E_arr i || I_arr i
      let pending_test_results_arr : Arr N := fun i => decide (T_result_left i > 0)
      let neighbors_tested : Arr N := fun i =>
        neighbors_traced i && !(TP_arr i || new_TP_arr i || pending_test_results_arr i)
      let res := test_group neighbors_tested carrier_arr T_result_left
        T_result_positive_arr test_delay_time
      (new_Q_arr1, res.1, res.2.1, n_neighbors_traced, res.2.2, neighbors_tested)
    else
      (new_Q_arr1, T_result_left, T_result_positive_arr, n_neighbors_traced, 0,
        fun _ => false)

/-- Result record of Simulation_steps.testing_step.  The count fields are the
returned counters; the three `*Tested` arrays expose the per-pathway tested
subsets the source computes internally (their sums are the counters). -/
structure TestingResult (N : ℕ) where
  TP : Arr N
  newQ : Arr N
  Tleft : QArr N
  Tpos : Arr N
  nInfectedTested : ℕ
  nNeighborsTraced : ℕ
  nNeighborsTested : ℕ
  nGeneralTested : ℕ
  symptTested : Arr N
  genTested : Arr N
  neighTested : Arr N

/-- Simulation_steps.testing_step: result resolution, symptomatic testing,
general-population testing, contact tracing, then `TP |= new_TP`. -/
def testing_step {N : ℕ} (E_arr I_arr A_arr TP_arr : Arr N)
    (T_result_left : QArr N) (T_result_positive_arr : Arr N)
    (prob_infected_detected prob_neighbor_traced prob_exposed_detected : ℚ)
    (quarantine_neighbors test_neighbors : Bool)
    (test_delay_time steps_per_day cfg_steps_per_day : ℚ) (adj_mat : AdjMat N)
    (drawSympt drawGen drawTrace : QArr N) : TestingResult N :=
  let ta := tests_analyzed T_result_left T_result_positive_arr steps_per_day
    cfg_steps_per_day
  let new_TP_arr := ta.1
  let st := symptomatics_tested I_arr A_arr TP_arr new_TP_arr ta.2
    T_result_positive_arr prob_infected_detected test_delay_time drawSympt
  let gt := general_population_tested E_arr I_arr TP_arr new_TP_arr st.1 st.2.1
    prob_exposed_detected test_delay_time drawGen
  let new_Q_arr : Arr N := fun i => new_TP_arr i || st.2.2.2 i
  let ct := contact_tracing E_arr I_arr TP_arr new_TP_arr gt.1 gt.2.1 new_Q_arr
    prob_neighbor_traced quarantine_neighbors test_neighbors test_delay_time
    adj_mat drawTrace
  { TP := fun i => TP_arr i || new_TP_arr i
    newQ := ct.1
    Tleft := ct.2.1
    Tpos := ct.2.2.1
    nInfectedTested := st.2.2.1
    nNeighborsTraced := ct.2.2.2.1
    nNeighborsTested := ct.2.2.2.2.1
    nGeneralTested := gt.2.2.1
    symptTested := st.2.2.2
    genTested := gt.2.2.2
    neighTested := ct.2.2.2.2.2 }

/-- Simulation_steps.incubation_step.  Returns `(E_arr, E_left, I_arr)`.
`E - become` and `I + become` on 0/1 int arrays, with `become ⊆ E` by
construction and `E`, `I` disjoint under the partition invariant, are the
boolean updates below. -/
def incubation_step {N : ℕ} (E_arr : Arr N) (E_left : QArr N) (I_arr : Arr N)
    (steps_per_day : ℚ) : Arr N × QArr N × Arr N :=
  let E_left1 : QArr N := fun i => E_left i - 1 / steps_per_day
  let become_infected : Arr N := fun i => E_arr i && decide (E_left1 i < EPSILON)
  (fun i => E_arr i && !(become_infected i), E_left1,
   fun i => I_arr i || become_infected i)

/-- Simulation_steps.recovery_step.  Returns `(I_arr, R_arr)`. -/
def recovery_step {N : ℕ} (I_arr R_arr : Arr N) (prob_recover : ℚ)
    (draw : QArr N) : Arr N × Arr N :=
  let new_recovered : Arr N := fun i => decide (draw i < prob_recover) && I_arr i
  (fun i => I_arr i && !(new_recovered i), fun i => R_arr i || new_recovered i)

/-- The `new_infected` union of the four spread-kernel invocations inside
Simulation_steps.infection_step (symptomatic/asymptomatic × Infected/Exposed). -/
def infection_new_infected {N : ℕ} (S_arr E_arr : Arr N) (E_left : QArr N)
    (I_arr A_arr Q_arr : Arr N) (adj_mat : AdjMat N)
    (prob_infect prob_infect_exposed_factor relative_infectiousness_asymptomatic
      duration_exposed_infects : ℚ) (u1 u2 u3 u4 : QArr N) : Arr N :=
  let susceptible_not_quarantined : Arr N := fun i => S_arr i && !(Q_arr i)
  let ni1 := spread_to_neighbors (fun i => I_arr i && !(A_arr i) && !(Q_arr i))
    prob_infect adj_mat (some susceptible_not_quarantined) u1
  let prob_infect_asymptomatic := prob_infect * relative_infectiousness_asymptomatic
  let ni2 := spread_to_neighbors (fun i => I_arr i && A_arr i && !(Q_arr i))
    prob_infect_asymptomatic adj_mat (some susceptible_not_quarantined) u2
  let E_infectious_arr : Arr N :=
    fun i => E_arr i && decide (E_left i ≤ duration_exposed_infects)
  let prob_infect_exposed := prob_infect * prob_infect_exposed_factor
  let ni3 := spread_to_neighbors (fun i => E_infectious_arr i && !(A_arr i) && !(Q_arr i))
    prob_infect_exposed adj_mat (some susceptible_not_quarantined) u3
  let prob_infect_exposed_asymptomatic :=
    prob_infect_exposed * relative_infectiousness_asymptomatic
  let ni4 := spread_to_neighbors (fun i => E_infectious_arr i && A_arr i && !(Q_arr i))
    prob_infect_exposed_asymptomatic adj_mat (some susceptible_not_quarantined) u4
  fun i => ni1 i || ni2 i || ni3 i || ni4 i

/-- Simulation_steps.infection_step.  Returns `(S_arr, E_arr, E_left)`; the
source mutates `E_left` in place via `np.copyto(..., where=new_infected)`, so
the updated `E_left` is returned as well.  `gdraw` is the oracle for
`np.random.gamma(incubation_k, incubation_theta, N)`. -/
def infection_step {N : ℕ} (S_arr E_arr : Arr N) (E_left : QArr N)
    (I_arr A_arr Q_arr : Arr N) (adj_mat : AdjMat N)
    (incubation_k incubation_theta : ℚ)
    (prob_infect prob_infect_exposed_factor relative_infectiousness_asymptomatic
      duration_exposed_infects : ℚ) (u1 u2 u3 u4 gdraw : QArr N) :
    Arr N × Arr N × QArr N :=
  let _ := incubation_k
  let _ := incubation_theta
  let new_infected := infection_new_infected S_arr E_arr E_left I_arr A_arr Q_arr
    adj_mat prob_infect prob_infect_exposed_factor
    relative_infectiousness_asymptomatic duration_exposed_infects u1 u2 u3 u4
  (fun i => S_arr i && !(new_infected i),
   fun i => E_arr i || new_infected i,
   fun i => if new_infected i then gdraw i else E_left i)

/-- Simulation_steps.quarantine_step.  Returns `(Q_arr, Q_left)`. -/
def quarantine_step {N : ℕ} (Q_arr : Arr N) (Q_left : QArr N)
    (R_arr TP_arr new_Q_arr : Arr N) (days_in_quarantine steps_per_day : ℚ) :
    Arr N × QArr N :=
  let Q_left1 : QArr N := fun i => Q_left i - 1 / steps_per_day
  let known_positives : Arr N := fun i => TP_arr i && !(R_arr i)
  let known_recovered : Arr N := fun i => TP_arr i && R_arr i
  let exit0 : Arr N := fun i => Q_arr i && decide (Q_left1 i < EPSILON)
  let exit1 : Arr N := fun i => exit0 i && !(known_positives i)
  let exit2 : Arr N := fun i => exit1 i || (known_recovered i && Q_arr i)
  let Q_arr1 : Arr N := fun i => Q_arr i && !(exit2 i)
  let new_in_quarantine : Arr N := fun i => new_Q_arr i && !(Q_arr1 i)
  (fun i => Q_arr1 i || new_in_quarantine i,
   fun i => if new_in_quarantine i then days_in_quarantine else Q_left1 i)

/-- The per-agent state vectors of one run (main.init_states' return values). -/
structure SimState (N : ℕ) where
  S : Arr N
  E : Arr N
  Eleft : QArr N
  I : Arr N
  A : Arr N
  R : Arr N
  Q : Arr N
  Qleft : QArr N
  TP : Arr N
  Tleft : QArr N
  Tpos : Arr N

/-- The configuration constants of config.py consumed by the engine. -/
structure Config where
  stepsPerDay : ℚ
  probInfect : ℚ
  probInfectExposedFactor : ℚ
  relativeInfectiousnessAsymptomatic : ℚ
  durationExposedInfects : ℚ
  incubationDurationMean : ℚ
  incubationDurationStd : ℚ
  probAsymptomatic : ℚ
  probRecover : ℚ
  daysInQuarantine : ℚ
  probInfectedDetected : ℚ
  probNeighborTraced : ℚ
  probExposedDetected : ℚ
  quarantineNeighbors : Bool
  testNeighbors : Bool
  testDelayTime : ℚ
  initialInfectedNum : ℕ
  maxSteps : ℕ

/-- The fresh random draws one tick consumes, one oracle vector per
`np.random.*` call site. -/
structure Oracle (N : ℕ) where
  infDraw1 : QArr N
  infDraw2 : QArr N
  infDraw3 : QArr N
  infDraw4 : QArr N
  incubDraw : QArr N
  symptDraw : QArr N
  genDraw : QArr N
  traceDraw : QArr N
  recovDraw : QArr N

/-- The four per-tick testing counters the driver snapshots. -/
structure StepCounts where
  nInfectedTested : ℕ
  nNeighborsTraced : ℕ
  nNeighborsTested : ℕ
  nGeneralTested : ℕ
deriving DecidableEq

/-- One full tick of the main loop (main.py lines 120-133): infection,
incubation, testing, quarantine, recovery in the driver's fixed order, with the
driver's per-step probabilities `config.X / config.STEPS_PER_DAY`.  The driver
call site passes its last two testing_step arguments in swapped positions (see
`main_testing_step_args` below); this composition threads them as the
testing_step signature intends, which coincides with the driver's observable
behavior whenever `prob_neighbor_traced = 0` (the only consumer of the junk
`steps_per_day` is tests_analyzed, which ignores its parameter and reads the
config constant; the junk adjacency is only touched by contact tracing). -/
def tick {N : ℕ} (cfg : Config) (adj_mat : AdjMat N) (o : Oracle N)
    (st : SimState N) : SimState N × StepCounts :=
  let prob_infect_per_step := cfg.probInfect / cfg.stepsPerDay
  let prob_infected_detected_per_step := cfg.probInfectedDetected / cfg.stepsPerDay
  let prob_exposed_detected_per_step := cfg.probExposedDetected / cfg.stepsPerDay
  let prob_recover_per_step := cfg.probRecover / cfg.stepsPerDay
  let kθ := get_gamma_distribution_params cfg.incubationDurationMean
    cfg.incubationDurationStd
  let inf := infection_step st.S st.E st.Eleft st.I st.A st.Q adj_mat kθ.1 kθ.2
    prob_infect_per_step cfg.probInfectExposedFactor
    cfg.relativeInfectiousnessAsymptomatic cfg.durationExposedInfects
    o.infDraw1 o.infDraw2 o.infDraw3 o.infDraw4 o.incubDraw
  let inc := incubation_step inf.2.1 inf.2.2 st.I cfg.stepsPerDay
  let tr := testing_step inc.1 inc.2.2 st.A st.TP st.Tleft st.Tpos
    prob_infected_detected_per_step cfg.probNeighborTraced
    prob_exposed_detected_per_step cfg.quarantineNeighbors cfg.testNeighbors
    cfg.testDelayTime cfg.stepsPerDay cfg.stepsPerDay adj_mat
    o.symptDraw o.genDraw o.traceDraw
  let qu := quarantine_step st.Q st.Qleft st.R tr.TP tr.newQ
    cfg.daysInQuarantine cfg.stepsPerDay
  let rec_ := recovery_step inc.2.2 st.R prob_recover_per_step o.recovDraw
  ({ S := inf.1
     E := inc.1
     Eleft := inc.2.1
     I := rec_.1
     A := st.A
     R := rec_.2
     Q := qu.1
     Qleft := qu.2
     TP := tr.TP
     Tleft := tr.Tleft
     Tpos := tr.Tpos },
   ⟨tr.nInfectedTested, tr.nNeighborsTraced, tr.nNeighborsTested, tr.nGeneralTested⟩)

/-- main.init_states' derived `initial_exposed_num =
int(initial_infected_num * incubation_duration_mean * prob_recover)` (Python
`int()` truncates toward zero). -/
def initial_exposed_num (initial_infected_num : ℕ) (incubation_duration_mean
    prob_recover : ℚ) : ℤ :=
  let x := (initial_infected_num : ℚ) * incubation_duration_mean * prob_recover
  if 0 ≤ x then ⌊x⌋ else ⌈x⌉

/-- main.init_states.  The no-replacement draw of initial Exposed and Infected
index sets becomes the two oracle Finsets `exposed_inds`, `infected_inds`
(disjoint because the source draws them jointly without replacement);
`asympt_draw` and `incub_draw` are the oracles for the asymptomatic subset draw
and the seeded incubation durations.  `S -= (I + E)` on the all-ones S with E,
I disjoint 0/1 arrays is the boolean complement below. -/
def init_states (N : ℕ) (prob_asymptomatic : ℚ)
    (exposed_inds infected_inds : Finset (Fin N))
    (asympt_draw incub_draw : QArr N) : SimState N :=
  let E_arr : Arr N := fun i => decide (i ∈ exposed_inds)
  let I_arr : Arr N := fun i => decide (i ∈ infected_inds)
  { S := fun i => !(E_arr i || I_arr i)
    E := E_arr
    Eleft := fun i => if E_arr i then incub_draw i else -1
    I := I_arr
    A := random_subset (fun _ => true) (fun _ => prob_asymptomatic) asympt_draw
    R := fun _ => false
    Q := fun _ => false
    Qleft := fun _ => -1
    TP := fun _ => false
    Tleft := fun _ => -1
    Tpos := fun _ => false }

/-- `arr.sum()` of a 0/1 indicator array. -/
def countTrue {N : ℕ} (f : Arr N) : ℕ := ∑ i, (f i).toNat

/-- One snapshot record (main.create_counter's dict). -/
structure Counter where
  infected : ℕ
  exposed : ℕ
  recovered : ℕ
  quarantined : ℕ
  susceptible : ℕ
  nInfectedTested : ℕ
  nNeighborsTraced : ℕ
  nNeighborsTested : ℕ
  nGeneralTested : ℕ
deriving DecidableEq

/-- main.create_counter. -/
def create_counter {N : ℕ} (I_arr E_arr R_arr Q_arr S_arr : Arr N)
    (sc : StepCounts) : Counter :=
  { infected := countTrue I_arr
    exposed := countTrue E_arr
    recovered := countTrue R_arr
    quarantined := countTrue Q_arr
    susceptible := countTrue S_arr
    nInfectedTested := sc.nInfectedTested
    nNeighborsTraced := sc.nNeighborsTraced
    nNeighborsTested := sc.nNeighborsTested
    nGeneralTested := sc.nGeneralTested }

/-- The snapshot the driver appends for the current state. -/
def snapshot {N : ℕ} (st : SimState N) (sc : StepCounts) : Counter :=
  create_counter st.I st.E st.R st.Q st.S sc

/-- The driver's main loop (main.py lines 115-137), fuel = remaining steps:
append the snapshot, run one tick, stop early when no Infected and no Exposed
remain.  Returns the appended snapshots and the final state and counters. -/
def sim_loop {N : ℕ} (cfg : Config) (adj_mat : AdjMat N) (o : ℕ → Oracle N) :
    ℕ → ℕ → SimState N → StepCounts → List Counter × SimState N × StepCounts
  | 0, _, st, sc => ([], st, sc)
  | fuel + 1, k, st, sc =>
    let c := snapshot st sc
    let next := tick cfg adj_mat (o k) st
    if countTrue next.1.I = 0 ∧ countTrue next.1.E = 0 then ([c], next.1, next.2)
    else
      let rest := sim_loop cfg adj_mat o fuel (k + 1) next.1 next.2
      (c :: rest.1, rest.2.1, rest.2.2)

/-- main.simulation, from state initialization through the loop to the final
snapshot append.  The source contains no configuration validation: this
function is total in `cfg`. -/
def simulation {N : ℕ} (cfg : Config) (adj_mat : AdjMat N)
    (exposed_inds infected_inds : Finset (Fin N))
    (asympt_draw incub_draw : QArr N) (o : ℕ → Oracle N) : List Counter :=
  let st0 := init_states N cfg.probAsymptomatic exposed_inds infected_inds
    asympt_draw incub_draw
  let res := sim_loop cfg adj_mat o cfg.maxSteps 0 st0 ⟨0, 0, 0, 0⟩
  res.1 ++ [snapshot res.2.1 res.2.2]

/-- The four compartment indicator arrays hold exactly one membership per agent. -/
def Partition4 {N : ℕ} (S_arr E_arr I_arr R_arr : Arr N) : Prop :=
  ∀ i, (S_arr i).toNat + (E_arr i).toNat + (I_arr i).toNat + (R_arr i).toNat = 1

/-- The partition invariant of a simulation state. -/
def PartitionInv {N : ℕ} (st : SimState N) : Prop :=
  Partition4 st.S st.E st.I st.R

instance {N : ℕ} (S_arr E_arr I_arr R_arr : Arr N) :
    Decidable (Partition4 S_arr E_arr I_arr R_arr) := by
  unfold Partition4; infer_instance

instance {N : ℕ} (st : SimState N) : Decidable (PartitionInv st) := by
  unfold PartitionInv; infer_instance

/-- Pointwise form of partition preservation through one tick: mass moves
S→E (by `n1 ⊆ S`), then E→I (by `n2 ⊆ E ∪ n1`), then I→R (by `n3 ⊆ I ∪ n2`). -/
theorem partition_chain_point : ∀ (s e i r n1 n2 n3 : Bool),
    (n1 = true → s = true) → (n2 = true → (e || n1) = true) →
    (n3 = true → (i || n2) = true) →
    s.toNat + e.toNat + i.toNat + r.toNat = 1 →
    (s && !n1).toNat + ((e || n1) && !n2).toNat + ((i || n2) && !n3).toNat +
      (r || n3).toNat = 1 := by decide

/-- Array form of `partition_chain_point`. -/
theorem Partition4_chain {N : ℕ} (S_arr E_arr I_arr R_arr n1 n2 n3 : Arr N)
    (h1 : ∀ i, n1 i = true → S_arr i = true)
    (h2 : ∀ i, n2 i = true → (E_arr i || n1 i) = true)
    (h3 : ∀ i, n3 i = true → (I_arr i || n2 i) = true)
    (h : Partition4 S_arr E_arr I_arr R_arr) :
    Partition4 (fun i => S_arr i && !(n1 i))
      (fun i => (E_arr i || n1 i) && !(n2 i))
      (fun i => (I_arr i || n2 i) && !(n3 i))
      (fun i => R_arr i || n3 i) :=
  fun i => partition_chain_point _ _ _ _ _ _ _ (h1 i) (h2 i) (h3 i) (h i)

/-- Newly infected agents are drawn from Susceptible-and-not-Quarantined. -/
theorem infection_new_infected_subset {N : ℕ} {S_arr E_arr : Arr N}
    {E_left : QArr N} {I_arr A_arr Q_arr : Arr N} {adj_mat : AdjMat N}
    {p f ra d : ℚ} {u1 u2 u3 u4 : QArr N} (i : Fin N)
    (h : infection_new_infected S_arr E_arr E_left I_arr A_arr Q_arr adj_mat
      p f ra d u1 u2 u3 u4 i = true) :
    S_arr i = true ∧ Q_arr i = false := by
  simp only [infection_new_infected, Bool.or_eq_true] at h
  rcases h with ((h | h) | h) | h <;>
  · have h2 := spread_to_neighbors_subset _ _ _ _ _ _ h
    simp only [Bool.and_eq_true, Bool.not_eq_true'] at h2
    exact h2

/-- One tick of the five-step engine preserves the compartment partition. -/
theorem tick_preserves_partition {N : ℕ} (cfg : Config) (adj_mat : AdjMat N)
    (o : Oracle N) (st : SimState N) (h : PartitionInv st) :
    PartitionInv (tick cfg adj_mat o st).1 := by
  unfold PartitionInv at h ⊢
  apply Partition4_chain st.S st.E st.I st.R _ _ _ ?h1 ?h2 ?h3 h
  case h1 => exact fun i hi => (infection_new_infected_subset i hi).1
  case h2 => exact fun i hi => by simp only [Bool.and_eq_true] at hi; exact hi.1
  case h3 => exact fun i hi => by simp only [Bool.and_eq_true] at hi; exact hi.2

/-- The initializer establishes the compartment partition. -/
theorem init_states_partition {N : ℕ} (pA : ℚ)
    (exposed_inds infected_inds : Finset (Fin N)) (aD iD : QArr N)
    (hd : Disjoint exposed_inds infected_inds) :
    PartitionInv (init_states N pA exposed_inds infected_inds aD iD) := by
  intro i
  by_cases he : i ∈ exposed_inds
  · have hni : i ∉ infected_inds := Finset.disjoint_left.mp hd he
    simp [init_states, he, hni]
  · by_cases hi : i ∈ infected_inds <;> simp [init_states, he, hi]

/-- Under the partition invariant the four compartment counts sum to N. -/
theorem partition_counts {N : ℕ} (st : SimState N) (h : PartitionInv st) :
    countTrue st.S + countTrue st.E + countTrue st.I + countTrue st.R = N := by
  unfold countTrue
  simp only [← Finset.sum_add_distrib]
  rw [Finset.sum_congr rfl (fun i _ => h i)]
  simp

/-- C2: the initializer establishes the S/E/I/R partition, every tick of the
five-step engine preserves it, and under it the four indicator sets are
pairwise disjoint with sizes summing to N. -/
theorem partition_invariant_spec :
    (∀ (N : ℕ) (pA : ℚ) (exposed_inds infected_inds : Finset (Fin N))
      (aD iD : QArr N), Disjoint exposed_inds infected_inds →
      PartitionInv (init_states N pA exposed_inds infected_inds aD iD)) ∧
    (∀ (N : ℕ) (cfg : Config) (adj_mat : AdjMat N) (o : Oracle N)
      (st : SimState N), PartitionInv st → PartitionInv (tick cfg adj_mat o st).1) ∧
    (∀ (N : ℕ) (st : SimState N), PartitionInv st →
      (countTrue st.S + countTrue st.E + countTrue st.I + countTrue st.R = N) ∧
      ∀ i, ¬(st.S i = true ∧ st.E i = true) ∧ ¬(st.S i = true ∧ st.I i = true) ∧
        ¬(st.S i = true ∧ st.R i = true) ∧ ¬(st.E i = true ∧ st.I i = true) ∧
        ¬(st.E i = true ∧ st.R i = true) ∧ ¬(st.I i = true ∧ st.R i = true)) := by
  refine ⟨fun N pA eI iI aD iD hd => init_states_partition pA eI iI aD iD hd,
    fun N cfg adj o st h => tick_preserves_partition cfg adj o st h,
    fun N st h => ⟨partition_counts st h, fun i => ?_⟩⟩
  have hh := h i
  cases hS : st.S i <;> cases hE : st.E i <;> cases hI : st.I i <;>
    cases hR : st.R i <;> simp_all

/-- A concrete configuration (the config.py defaults, floats as rationals). -/
def sampleConfig : Config :=
  { stepsPerDay := 5
    probInfect := 27/1000
    probInfectExposedFactor := 1/2
    relativeInfectiousnessAsymptomatic := 1/2
    durationExposedInfects := 2
    incubationDurationMean := 51/10
    incubationDurationStd := 219/50
    probAsymptomatic := 2/5
    probRecover := 2/7
    daysInQuarantine := 14
    probInfectedDetected := 0
    probNeighborTraced := 0
    probExposedDetected := 0
    quarantineNeighbors := false
    testNeighbors := false
    testDelayTime := 0
    initialInfectedNum := 10
    maxSteps := 3000 }

/-- A concrete oracle: every uniform draw 1/2, every incubation draw 5 days. -/
def sampleOracle (N : ℕ) : Oracle N :=
  { infDraw1 := fun _ => 1/2
    infDraw2 := fun _ => 1/2
    infDraw3 := fun _ => 1/2
    infDraw4 := fun _ => 1/2
    incubDraw := fun _ => 5
    symptDraw := fun _ => 1/2
    genDraw := fun _ => 1/2
    traceDraw := fun _ => 1/2
    recovDraw := fun _ => 1/2 }

/-- A concrete two-agent state: agent 0 Infected, agent 1 Susceptible. -/
def sampleState : SimState 2 :=
  { S := fun i => decide (i = 1)
    E := fun _ => false
    Eleft := fun _ => -1
    I := fun i => decide (i = 0)
    A := fun _ => false
    R := fun _ => false
    Q := fun _ => false
    Qleft := fun _ => -1
    TP := fun _ => false
    Tleft := fun _ => -1
    Tpos := fun _ => false }

/-- Witness for C2: the partition invariant of a concrete state is preserved
by a concrete tick. -/
theorem partition_invariant_spec_witness :
    PartitionInv sampleState ∧
    PartitionInv (tick sampleConfig (fun _ _ => 0) (sampleOracle 2) sampleState).1 :=
  ⟨by decide,
    partition_invariant_spec.2.1 2 sampleConfig (fun _ _ => 0) (sampleOracle 2)
      sampleState (by decide)⟩

/-- C3: in the quarantine step, (a) a Quarantined known-positive who has not
Recovered stays Quarantined regardless of countdown; (b) a Quarantined agent
whose decremented countdown has expired and who is not a non-recovered known
positive exits, so its final membership is exactly the testing step's flag
(re-entering with countdown reset to the configured duration when flagged);
(c) a Quarantined known-positive who has Recovered likewise exits this tick
even if its countdown has not expired; (d) an agent flagged by the testing
step that is not already Quarantined enters with its countdown reset. -/
theorem quarantine_step_spec {N : ℕ} (Q_arr : Arr N) (Q_left : QArr N)
    (R_arr TP_arr new_Q_arr : Arr N) (days_in_quarantine steps_per_day : ℚ)
    (i : Fin N) :
    (Q_arr i = true → TP_arr i = true → R_arr i = false →
      (quarantine_step Q_arr Q_left R_arr TP_arr new_Q_arr days_in_quarantine
        steps_per_day).1 i = true) ∧
    (Q_arr i = true → Q_left i - 1 / steps_per_day < EPSILON →
      ¬(TP_arr i = true ∧ R_arr i = false) →
      ((quarantine_step Q_arr Q_left R_arr TP_arr new_Q_arr days_in_quarantine
          steps_per_day).1 i = new_Q_arr i ∧
        (new_Q_arr i = true →
          (quarantine_step Q_arr Q_left R_arr TP_arr new_Q_arr days_in_quarantine
            steps_per_day).2 i = days_in_quarantine))) ∧
    (Q_arr i = true → TP_arr i = true → R_arr i = true →
      ((quarantine_step Q_arr Q_left R_arr TP_arr new_Q_arr days_in_quarantine
          steps_per_day).1 i = new_Q_arr i ∧
        (new_Q_arr i = true →
          (quarantine_step Q_arr Q_left R_arr TP_arr new_Q_arr days_in_quarantine
            steps_per_day).2 i = days_in_quarantine))) ∧
    (new_Q_arr i = true → Q_arr i = false →
      ((quarantine_step Q_arr Q_left R_arr TP_arr new_Q_arr days_in_quarantine
          steps_per_day).1 i = true ∧
        (quarantine_step Q_arr Q_left R_arr TP_arr new_Q_arr days_in_quarantine
          steps_per_day).2 i = days_in_quarantine)) := by
  refine ⟨?_, ?_, ?_, ?_⟩
  · intro hQ hTP hR
    simp [quarantine_step, hQ, hTP, hR]
  · intro hQ hexp hnp
    rw [one_div] at hexp
    cases hTP : TP_arr i <;> cases hR : R_arr i
    · exact ⟨by simp [quarantine_step, hQ, hexp, hTP, hR],
        fun hnq => by simp [quarantine_step, hQ, hexp, hTP, hR, hnq]⟩
    · exact ⟨by simp [quarantine_step, hQ, hexp, hTP, hR],
        fun hnq => by simp [quarantine_step, hQ, hexp, hTP, hR, hnq]⟩
    · exact absurd ⟨hTP, hR⟩ hnp
    · exact ⟨by simp [quarantine_step, hQ, hexp, hTP, hR],
        fun hnq => by simp [quarantine_step, hQ, hexp, hTP, hR, hnq]⟩
  · intro hQ hTP hR
    exact ⟨by simp [quarantine_step, hQ, hTP, hR],
      fun hnq => by simp [quarantine_step, hQ, hTP, hR, hnq]⟩
  · intro hnq hQ
    constructor <;> simp [quarantine_step, hnq, hQ]

/-- Witness for C3 at a concrete input: an expired, not-known-positive agent
exits (final membership equals the flag, here false). -/
theorem quarantine_step_spec_witness :
    ((fun _ : Fin 1 => true) 0 = true) ∧
    ((fun _ : Fin 1 => (0:ℚ)) 0 - 1 / 5 < EPSILON) ∧
    ¬((fun _ : Fin 1 => false) 0 = true ∧ (fun _ : Fin 1 => false) 0 = false) ∧
    ((quarantine_step (fun _ : Fin 1 => true) (fun _ => 0) (fun _ => false)
        (fun _ => false) (fun _ => false) 14 5).1 0 = (fun _ : Fin 1 => false) 0 ∧
      ((fun _ : Fin 1 => false) 0 = true →
        (quarantine_step (fun _ : Fin 1 => true) (fun _ => 0) (fun _ => false)
          (fun _ => false) (fun _ => false) 14 5).2 0 = 14)) :=
  ⟨rfl, by norm_num [EPSILON], by simp,
    (quarantine_step_spec (fun _ => true) (fun _ => 0) (fun _ => false)
      (fun _ => false) (fun _ => false) 14 5 0).2.1 rfl (by norm_num [EPSILON])
      (by simp)⟩

/-- A zero count means the indicator array is all-false. -/
theorem countTrue_eq_zero {N : ℕ} (f : Arr N) (h : countTrue f = 0) :
    ∀ i, f i = false := by
  intro i
  unfold countTrue at h
  have hz := Finset.sum_eq_zero_iff.mp h i (Finset.mem_univ i)
  cases hf : f i
  · rfl
  · rw [hf] at hz; simp at hz

/-- Spreading from an empty source group affects nobody (given a nonnegative
uniform draw). -/
theorem spread_to_neighbors_empty {N : ℕ} (g : Arr N) (p : ℚ) (adj : AdjMat N)
    (tgOpt : Option (Arr N)) (u : QArr N) (i : Fin N)
    (hg : ∀ j, g j = false) (hu : 0 ≤ u i) :
    spread_to_neighbors g p adj tgOpt u i = false := by
  have hprobs : individual_infection_probabilities g p adj i = 0 := by
    unfold individual_infection_probabilities number_of_edges_to_group
    by_cases hp : p = 0 <;> simp [hp, hg]
  simp [spread_to_neighbors, random_subset, hprobs, not_lt.mpr hu]

/-- C10: from a state with no Infected and no Exposed, one further full tick
(infection, incubation, testing, quarantine, recovery) leaves all four
compartment counts unchanged. -/
theorem tick_fixed_point_spec {N : ℕ} (cfg : Config) (adj_mat : AdjMat N)
    (o : Oracle N) (st : SimState N)
    (hI : countTrue st.I = 0) (hE : countTrue st.E = 0)
    (h1 : ∀ i, 0 ≤ o.infDraw1 i) (h2 : ∀ i, 0 ≤ o.infDraw2 i)
    (h3 : ∀ i, 0 ≤ o.infDraw3 i) (h4 : ∀ i, 0 ≤ o.infDraw4 i) :
    countTrue (tick cfg adj_mat o st).1.S = countTrue st.S ∧
    countTrue (tick cfg adj_mat o st).1.E = countTrue st.E ∧
    countTrue (tick cfg adj_mat o st).1.I = countTrue st.I ∧
    countTrue (tick cfg adj_mat o st).1.R = countTrue st.R := by
  have hIi : ∀ i, st.I i = false := countTrue_eq_zero st.I hI
  have hEi : ∀ i, st.E i = false := countTrue_eq_zero st.E hE
  have hnI : ∀ i, infection_new_infected st.S st.E st.Eleft st.I st.A st.Q adj_mat
      (cfg.probInfect / cfg.stepsPerDay) cfg.probInfectExposedFactor
      cfg.relativeInfectiousnessAsymptomatic cfg.durationExposedInfects
      o.infDraw1 o.infDraw2 o.infDraw3 o.infDraw4 i = false := by
    intro i
    unfold infection_new_infected
    refine Bool.or_eq_false_iff.mpr ⟨Bool.or_eq_false_iff.mpr
      ⟨Bool.or_eq_false_iff.mpr ⟨?_, ?_⟩, ?_⟩, ?_⟩
    · exact spread_to_neighbors_empty _ _ _ _ _ i (fun j => by simp [hIi]) (h1 i)
    · exact spread_to_neighbors_empty _ _ _ _ _ i (fun j => by simp [hIi]) (h2 i)
    · exact spread_to_neighbors_empty _ _ _ _ _ i (fun j => by simp [hEi]) (h3 i)
    · exact spread_to_neighbors_empty _ _ _ _ _ i (fun j => by simp [hEi]) (h4 i)
  unfold countTrue
  refine ⟨Finset.sum_congr rfl fun i _ => ?_, Finset.sum_congr rfl fun i _ => ?_,
    Finset.sum_congr rfl fun i _ => ?_, Finset.sum_congr rfl fun i _ => ?_⟩ <;>
    simp only [tick, infection_step, incubation_step, recovery_step] <;>
    simp [hIi, hEi, hnI]

/-- A concrete all-Susceptible state. -/
def idleState : SimState 1 :=
  { S := fun _ => true
    E := fun _ => false
    Eleft := fun _ => -1
    I := fun _ => false
    A := fun _ => false
    R := fun _ => false
    Q := fun _ => false
    Qleft := fun _ => -1
    TP := fun _ => false
    Tleft := fun _ => -1
    Tpos := fun _ => false }

/-- Witness for C10 at a concrete input. -/
theorem tick_fixed_point_spec_witness :
    countTrue idleState.I = 0 ∧ countTrue idleState.E = 0 ∧
    (∀ i, 0 ≤ (sampleOracle 1).infDraw1 i) ∧ (∀ i, 0 ≤ (sampleOracle 1).infDraw2 i) ∧
    (∀ i, 0 ≤ (sampleOracle 1).infDraw3 i) ∧ (∀ i, 0 ≤ (sampleOracle 1).infDraw4 i) ∧
    (countTrue (tick sampleConfig (fun _ _ => 0) (sampleOracle 1) idleState).1.S =
        countTrue idleState.S ∧
      countTrue (tick sampleConfig (fun _ _ => 0) (sampleOracle 1) idleState).1.E =
        countTrue idleState.E ∧
      countTrue (tick sampleConfig (fun _ _ => 0) (sampleOracle 1) idleState).1.I =
        countTrue idleState.I ∧
      countTrue (tick sampleConfig (fun _ _ => 0) (sampleOracle 1) idleState).1.R =
        countTrue idleState.R) :=
  ⟨by decide, by decide,
    fun i => by norm_num [sampleOracle], fun i => by norm_num [sampleOracle],
    fun i => by norm_num [sampleOracle], fun i => by norm_num [sampleOracle],
    tick_fixed_point_spec sampleConfig (fun _ _ => 0) (sampleOracle 1) idleState
      (by decide) (by decide)
      (fun i => by norm_num [sampleOracle]) (fun i => by norm_num [sampleOracle])
      (fun i => by norm_num [sampleOracle]) (fun i => by norm_num [sampleOracle])⟩

/-- An agent that is known positive, newly positive, or pending (positive
`T_result_left`) is not in the symptomatic-testing subset. -/
theorem symptomatics_tested_excl {N : ℕ} (I_arr A_arr TP_arr new_TP_arr : Arr N)
    (Tleft : QArr N) (Tpos : Arr N) (p delay : ℚ) (draw : QArr N) (i : Fin N)
    (h : TP_arr i = true ∨ new_TP_arr i = true ∨ 0 < Tleft i) :
    (symptomatics_tested I_arr A_arr TP_arr new_TP_arr Tleft Tpos p delay
      draw).2.2.2 i = false := by
  rcases h with h | h | h <;> simp [symptomatics_tested, random_subset, h]

/-- If an agent is not in the symptomatic-testing subset, its result timer is
unchanged by that pathway. -/
theorem symptomatics_tested_Tleft_of_not_tested {N : ℕ}
    (I_arr A_arr TP_arr new_TP_arr : Arr N) (Tleft : QArr N) (Tpos : Arr N)
    (p delay : ℚ) (draw : QArr N) (i : Fin N)
    (hns : (symptomatics_tested I_arr A_arr TP_arr new_TP_arr Tleft Tpos p delay
      draw).2.2.2 i = false) :
    (symptomatics_tested I_arr A_arr TP_arr new_TP_arr Tleft Tpos p delay
      draw).1 i = Tleft i := by
  have hrw : (symptomatics_tested I_arr A_arr TP_arr new_TP_arr Tleft Tpos p delay
      draw).1 i = if (symptomatics_tested I_arr A_arr TP_arr new_TP_arr Tleft Tpos
      p delay draw).2.2.2 i then delay else Tleft i := rfl
  rw [hrw, hns]
  simp

/-- An agent that is known positive, newly positive, or pending is not in the
general-population testing subset. -/
theorem general_population_tested_excl {N : ℕ} (E_arr I_arr TP_arr new_TP_arr : Arr N)
    (Tleft : QArr N) (Tpos : Arr N) (p delay : ℚ) (draw : QArr N) (i : Fin N)
    (h : TP_arr i = true ∨ new_TP_arr i = true ∨ 0 < Tleft i) :
    (general_population_tested E_arr I_arr TP_arr new_TP_arr Tleft Tpos p delay
      draw).2.2.2 i = false := by
  rcases h with h | h | h <;> simp [general_population_tested, random_subset, h]

/-- If an agent is not in the general-population subset, its result timer is
unchanged by that pathway. -/
theorem general_population_tested_Tleft_of_not_tested {N : ℕ}
    (E_arr I_arr TP_arr new_TP_arr : Arr N) (Tleft : QArr N) (Tpos : Arr N)
    (p delay : ℚ) (draw : QArr N) (i : Fin N)
    (hns : (general_population_tested E_arr I_arr TP_arr new_TP_arr Tleft Tpos p
      delay draw).2.2.2 i = false) :
    (general_population_tested E_arr I_arr TP_arr new_TP_arr Tleft Tpos p delay
      draw).1 i = Tleft i := by
  have hrw : (general_population_tested E_arr I_arr TP_arr new_TP_arr Tleft Tpos p
      delay draw).1 i = if (general_population_tested E_arr I_arr TP_arr new_TP_arr
      Tleft Tpos p delay draw).2.2.2 i then delay else Tleft i := rfl
  rw [hrw, hns]
  simp

/-- An agent that is known positive, newly positive, or pending is not in the
contact-traced tested subset. -/
theorem contact_tracing_tested_excl {N : ℕ} (E_arr I_arr TP_arr new_TP_arr : Arr N)
    (Tleft : QArr N) (Tpos new_Q_arr : Arr N) (pNT : ℚ) (qN tN : Bool)
    (delay : ℚ) (adj : AdjMat N) (draw : QArr N) (i : Fin N)
    (h : TP_arr i = true ∨ new_TP_arr i = true ∨ 0 < Tleft i) :
    (contact_tracing E_arr I_arr TP_arr new_TP_arr Tleft Tpos new_Q_arr pNT qN tN
      delay adj draw).2.2.2.2.2 i = false := by
  unfold contact_tracing
  by_cases hp : pNT = 0
  · simp [hp]
  · cases htn : tN
    · simp [hp, htn]
    · rcases h with h | h | h <;> simp [hp, htn, h]

/-- C4 (amended): an agent whose TestedPositive flag is set at the start of the
testing step, or whose test-result timer is still pending after this tick's
result resolution (the decremented timer is still positive), is excluded from
the tested subsets of all three testing pathways of that tick. -/
theorem testing_no_retest_amended {N : ℕ} (E_arr I_arr A_arr TP_arr : Arr N)
    (Tleft : QArr N) (Tpos : Arr N) (pID pNT pED : ℚ) (qN tN : Bool)
    (delay spd cfgspd : ℚ) (adj : AdjMat N) (dS dG dT : QArr N) (i : Fin N)
    (h : TP_arr i = true ∨ 0 < (tests_analyzed Tleft Tpos spd cfgspd).2 i) :
    (testing_step E_arr I_arr A_arr TP_arr Tleft Tpos pID pNT pED qN tN delay spd
      cfgspd adj dS dG dT).symptTested i = false ∧
    (testing_step E_arr I_arr A_arr TP_arr Tleft Tpos pID pNT pED qN tN delay spd
      cfgspd adj dS dG dT).genTested i = false ∧
    (testing_step E_arr I_arr A_arr TP_arr Tleft Tpos pID pNT pED qN tN delay spd
      cfgspd adj dS dG dT).neighTested i = false := by
  set ta := tests_analyzed Tleft Tpos spd cfgspd with hta
  have h1 : TP_arr i = true ∨ ta.1 i = true ∨ 0 < ta.2 i := by
    rcases h with h | h
    · exact Or.inl h
    · exact Or.inr (Or.inr h)
  set st := symptomatics_tested I_arr A_arr TP_arr ta.1 ta.2 Tpos pID delay dS
    with hst
  have hs : st.2.2.2 i = false :=
    symptomatics_tested_excl I_arr A_arr TP_arr ta.1 ta.2 Tpos pID delay dS i h1
  have hTl2 : st.1 i = ta.2 i :=
    symptomatics_tested_Tleft_of_not_tested I_arr A_arr TP_arr ta.1 ta.2 Tpos pID
      delay dS i hs
  have h2 : TP_arr i = true ∨ ta.1 i = true ∨ 0 < st.1 i := by
    rw [hTl2]; exact h1
  set gp := general_population_tested E_arr I_arr TP_arr ta.1 st.1 st.2.1 pED
    delay dG with hgp
  have hg : gp.2.2.2 i = false :=
    general_population_tested_excl E_arr I_arr TP_arr ta.1 st.1 st.2.1 pED delay
      dG i h2
  have hTl3 : gp.1 i = st.1 i :=
    general_population_tested_Tleft_of_not_tested E_arr I_arr TP_arr ta.1 st.1
      st.2.1 pED delay dG i hg
  have h3 : TP_arr i = true ∨ ta.1 i = true ∨ 0 < gp.1 i := by
    rw [hTl3]; exact h2
  have hn := contact_tracing_tested_excl E_arr I_arr TP_arr ta.1 gp.1 gp.2.1
    (fun j => ta.1 j || st.2.2.2 j) pNT qN tN delay adj dT i h3
  exact ⟨hs, hg, hn⟩

/-- Witness for C4 (amended) at a concrete input: a known-positive agent is in
none of the three tested subsets. -/
theorem testing_no_retest_amended_witness :
    ((fun _ : Fin 1 => true) 0 = true ∨
      0 < (tests_analyzed (N := 1) (fun _ => -1) (fun _ => false) 5 5).2 0) ∧
    ((testing_step (N := 1) (fun _ => false) (fun _ => true) (fun _ => false)
        (fun _ => true) (fun _ => -1) (fun _ => false) 1 0 1 false false 1 5 5
        (fun _ _ => 0) (fun _ => 0) (fun _ => 0) (fun _ => 0)).symptTested 0 = false ∧
      (testing_step (N := 1) (fun _ => false) (fun _ => true) (fun _ => false)
        (fun _ => true) (fun _ => -1) (fun _ => false) 1 0 1 false false 1 5 5
        (fun _ _ => 0) (fun _ => 0) (fun _ => 0) (fun _ => 0)).genTested 0 = false ∧
      (testing_step (N := 1) (fun _ => false) (fun _ => true) (fun _ => false)
        (fun _ => true) (fun _ => -1) (fun _ => false) 1 0 1 false false 1 5 5
        (fun _ _ => 0) (fun _ => 0) (fun _ => 0) (fun _ => 0)).neighTested 0 = false) :=
  ⟨Or.inl rfl,
    testing_no_retest_amended (fun _ => false) (fun _ => true) (fun _ => false)
      (fun _ => true) (fun _ => -1) (fun _ => false) 1 0 1 false false 1 5 5
      (fun _ _ => 0) (fun _ => 0) (fun _ => 0) (fun _ => 0) 0 (Or.inl rfl)⟩

/-- Counterexample to C4 as stated: an Infected agent whose test-result timer
is pending at the start of the testing step (T_result_left = 1/10 > 0) but
whose negative result returns during this tick's result resolution is drawn
into the symptomatic-testing subset of the same tick. -/
theorem testing_no_retest_counterexample :
    (0:ℚ) < (fun _ : Fin 1 => (1/10:ℚ)) 0 ∧
    (testing_step (N := 1) (fun _ => false) (fun _ => true) (fun _ => false)
      (fun _ => false) (fun _ => 1/10) (fun _ => false) 1 0 0 false false 1 5 5
      (fun _ _ => 0) (fun _ => 0) (fun _ => 0) (fun _ => 0)).symptTested 0 = true := by
  constructor
  · norm_num
  · have c1 : ((1:ℚ)/10 - 1/5) < EPSILON := by norm_num [EPSILON]
    have c2 : ((1:ℚ)/10 - 1/5) > -1 := by norm_num
    have c3 : ¬((-1:ℚ) > 0) := by norm_num
    have c4 : (0:ℚ) < 1 := by norm_num
    show (symptomatics_tested (N := 1) (fun _ => true) (fun _ => false)
      (fun _ => false)
      (tests_analyzed (N := 1) (fun _ => 1/10) (fun _ => false) 5 5).1
      (tests_analyzed (N := 1) (fun _ => 1/10) (fun _ => false) 5 5).2
      (fun _ => false) 1 1 (fun _ => 0)).2.2.2 0 = true
    simp [symptomatics_tested, tests_analyzed, random_subset, c1, c2, c3, c4]
    norm_num [EPSILON]

/-- Spreading with per-edge probability 0 affects nobody (given a nonnegative
draw); helper shared by several proofs. -/
theorem spread_prob_zero {N : ℕ} (g : Arr N) (adj : AdjMat N)
    (tgOpt : Option (Arr N)) (u : QArr N) (i : Fin N) (hu : 0 ≤ u i) :
    spread_to_neighbors g 0 adj tgOpt u i = false := by
  simp [spread_to_neighbors, random_subset, individual_infection_probabilities,
    not_lt.mpr hu]

/-- C7: with `prob_infect = 1`, `prob_infect_exposed_factor = 0`, nobody
Asymptomatic, and a graph whose only edge joins the Infected non-quarantined
node `a` to the Susceptible non-quarantined node `b`, one infection step moves
`b` from Susceptible to Exposed with certainty (for any in-range uniform
draws), and leaves the compartments of every other node unchanged. -/
theorem infection_step_one_edge {N : ℕ} (a b : Fin N) (S_arr E_arr : Arr N)
    (E_left : QArr N) (I_arr A_arr Q_arr : Arr N) (adj_mat : AdjMat N)
    (k θ rel dur : ℚ) (u1 u2 u3 u4 gdraw : QArr N)
    (hab : a ≠ b)
    (hA : ∀ i, A_arr i = false)
    (hIa : I_arr a = true) (hQa : Q_arr a = false) (hSa : S_arr a = false)
    (hSb : S_arr b = true) (hQb : Q_arr b = false)
    (hadj : ∀ i j, adj_mat i j =
      if (i = a ∧ j = b) ∨ (i = b ∧ j = a) then 1 else 0)
    (hu1 : ∀ i, 0 ≤ u1 i) (hu2 : ∀ i, 0 ≤ u2 i)
    (hu3 : ∀ i, 0 ≤ u3 i) (hu4 : ∀ i, 0 ≤ u4 i)
    (hub : u1 b < 1) :
    (infection_step S_arr E_arr E_left I_arr A_arr Q_arr adj_mat k θ 1 0 rel dur
      u1 u2 u3 u4 gdraw).1 b = false ∧
    (infection_step S_arr E_arr E_left I_arr A_arr Q_arr adj_mat k θ 1 0 rel dur
      u1 u2 u3 u4 gdraw).2.1 b = true ∧
    (∀ i, i ≠ b →
      ((infection_step S_arr E_arr E_left I_arr A_arr Q_arr adj_mat k θ 1 0 rel
        dur u1 u2 u3 u4 gdraw).1 i = S_arr i ∧
       (infection_step S_arr E_arr E_left I_arr A_arr Q_arr adj_mat k θ 1 0 rel
        dur u1 u2 u3 u4 gdraw).2.1 i = E_arr i)) := by
  have hga : (I_arr a && !(A_arr a) && !(Q_arr a)) = true := by
    rw [hIa, hA a, hQa]; rfl
  have hne : ¬ ∀ j, (I_arr j && !(A_arr j) && !(Q_arr j)) = false := by
    intro hall
    rw [hall a] at hga
    exact Bool.false_ne_true hga
  have hcount_b : number_of_edges_to_group
      (fun j => I_arr j && !(A_arr j) && !(Q_arr j)) adj_mat b = 1 := by
    unfold number_of_edges_to_group
    rw [if_neg hne]
    rw [Finset.sum_eq_single a]
    · simp [hadj, hga]
    · intro j _ hj
      simp [hadj, hj, Ne.symm hab]
    · intro hma; exact absurd (Finset.mem_univ a) hma
  have hcount_zero : ∀ i, i ≠ a → i ≠ b → number_of_edges_to_group
      (fun j => I_arr j && !(A_arr j) && !(Q_arr j)) adj_mat i = 0 := by
    intro i hia hib
    unfold number_of_edges_to_group
    rw [if_neg hne]
    apply Finset.sum_eq_zero
    intro j _
    simp [hadj, hia, hib]
  have hprobs : ∀ i, individual_infection_probabilities
      (fun j => I_arr j && !(A_arr j) && !(Q_arr j)) 1 adj_mat i =
      1 - (0:ℚ) ^ (number_of_edges_to_group
        (fun j => I_arr j && !(A_arr j) && !(Q_arr j)) adj_mat i) := by
    intro i
    unfold individual_infection_probabilities
    rw [if_neg one_ne_zero]
    norm_num
  have hni1_b : spread_to_neighbors (fun j => I_arr j && !(A_arr j) && !(Q_arr j))
      1 adj_mat (some (fun j => S_arr j && !(Q_arr j))) u1 b = true := by
    have hpb : individual_infection_probabilities
        (fun j => I_arr j && !(A_arr j) && !(Q_arr j)) 1 adj_mat b = 1 := by
      rw [hprobs b, hcount_b]; norm_num
    simp [spread_to_neighbors, random_subset, hpb, hub, hSb, hQb]
  have hni1 : ∀ i, i ≠ b → spread_to_neighbors
      (fun j => I_arr j && !(A_arr j) && !(Q_arr j)) 1 adj_mat
      (some (fun j => S_arr j && !(Q_arr j))) u1 i = false := by
    intro i hib
    by_cases hia : i = a
    · subst hia
      simp [spread_to_neighbors, random_subset, hSa]
    · have hpi : individual_infection_probabilities
          (fun j => I_arr j && !(A_arr j) && !(Q_arr j)) 1 adj_mat i = 0 := by
        rw [hprobs i, hcount_zero i hia hib]; norm_num
      simp [spread_to_neighbors, random_subset, hpi, not_lt.mpr (hu1 i)]
  have hni2 : ∀ i, spread_to_neighbors (fun j => I_arr j && A_arr j && !(Q_arr j))
      (1 * rel) adj_mat (some (fun j => S_arr j && !(Q_arr j))) u2 i = false := by
    intro i
    exact spread_to_neighbors_empty _ _ _ _ _ i (fun j => by simp [hA]) (hu2 i)
  have hni3 : ∀ i, spread_to_neighbors
      (fun j => (E_arr j && decide (E_left j ≤ dur)) && !(A_arr j) && !(Q_arr j))
      (1 * 0) adj_mat (some (fun j => S_arr j && !(Q_arr j))) u3 i = false := by
    intro i
    rw [mul_zero]
    exact spread_prob_zero _ _ _ _ i (hu3 i)
  have hni4 : ∀ i, spread_to_neighbors
      (fun j => (E_arr j && decide (E_left j ≤ dur)) && A_arr j && !(Q_arr j))
      (1 * 0 * rel) adj_mat (some (fun j => S_arr j && !(Q_arr j))) u4 i = false := by
    intro i
    rw [mul_zero, zero_mul]
    exact spread_prob_zero _ _ _ _ i (hu4 i)
  simp only [one_mul, mul_zero, zero_mul] at hni2 hni3 hni4
  have key : ∀ i, infection_new_infected S_arr E_arr E_left I_arr A_arr Q_arr
      adj_mat 1 0 rel dur u1 u2 u3 u4 i = decide (i = b) := by
    intro i
    by_cases hib : i = b
    · subst hib
      unfold infection_new_infected
      simp [hni1_b]
    · unfold infection_new_infected
      simp [hni1 i hib, hni2 i, hni3 i, hni4 i, hib]
  refine ⟨?_, ?_, fun i hi => ⟨?_, ?_⟩⟩ <;>
    simp only [infection_step] <;> simp [key, hSb, *]

/-- Witness for C7 at a concrete input: two nodes, node 0 Infected, node 1
Susceptible, a single edge between them. -/
theorem infection_step_one_edge_witness :
    ((0:Fin 2) ≠ 1) ∧ ((fun _ : Fin 2 => (1/2:ℚ)) 1 < 1) ∧
    ((infection_step (N := 2) (fun i => decide (i = 1)) (fun _ => false)
        (fun _ => -1) (fun i => decide (i = 0)) (fun _ => false) (fun _ => false)
        (fun i j => if (i = 0 ∧ j = 1) ∨ (i = 1 ∧ j = 0) then 1 else 0) 1 1 1 0
        (1/2) 2 (fun _ => 1/2) (fun _ => 1/2) (fun _ => 1/2) (fun _ => 1/2)
        (fun _ => 5)).1 1 = false ∧
      (infection_step (N := 2) (fun i => decide (i = 1)) (fun _ => false)
        (fun _ => -1) (fun i => decide (i = 0)) (fun _ => false) (fun _ => false)
        (fun i j => if (i = 0 ∧ j = 1) ∨ (i = 1 ∧ j = 0) then 1 else 0) 1 1 1 0
        (1/2) 2 (fun _ => 1/2) (fun _ => 1/2) (fun _ => 1/2) (fun _ => 1/2)
        (fun _ => 5)).2.1 1 = true ∧
      (∀ i, i ≠ 1 →
        ((infection_step (N := 2) (fun i => decide (i = 1)) (fun _ => false)
          (fun _ => -1) (fun i => decide (i = 0)) (fun _ => false) (fun _ => false)
          (fun i j => if (i = 0 ∧ j = 1) ∨ (i = 1 ∧ j = 0) then 1 else 0) 1 1 1 0
          (1/2) 2 (fun _ => 1/2) (fun _ => 1/2) (fun _ => 1/2) (fun _ => 1/2)
          (fun _ => 5)).1 i = (fun i : Fin 2 => decide (i = 1)) i ∧
         (infection_step (N := 2) (fun i => decide (i = 1)) (fun _ => false)
          (fun _ => -1) (fun i => decide (i = 0)) (fun _ => false) (fun _ => false)
          (fun i j => if (i = 0 ∧ j = 1) ∨ (i = 1 ∧ j = 0) then 1 else 0) 1 1 1 0
          (1/2) 2 (fun _ => 1/2) (fun _ => 1/2) (fun _ => 1/2) (fun _ => 1/2)
          (fun _ => 5)).2.1 i = (fun _ : Fin 2 => false) i))) :=
  ⟨by decide, by norm_num,
    infection_step_one_edge 0 1 (fun i => decide (i = 1)) (fun _ => false)
      (fun _ => -1) (fun i => decide (i = 0)) (fun _ => false) (fun _ => false)
      (fun i j => if (i = 0 ∧ j = 1) ∨ (i = 1 ∧ j = 0) then 1 else 0) 1 1 (1/2) 2
      (fun _ => 1/2) (fun _ => 1/2) (fun _ => 1/2) (fun _ => 1/2) (fun _ => 5)
      (by decide) (fun _ => rfl) (by decide) rfl (by decide) (by decide) rfl
      (fun i j => rfl) (fun i => by norm_num) (fun i => by norm_num)
      (fun i => by norm_num) (fun i => by norm_num) (by norm_num)⟩

/-- The positional parameter list of Simulation_steps.testing_step (line 134). -/
def testing_step_params : List String :=
  ["E_arr", "I_arr", "A_arr", "TP_arr", "T_result_left", "T_result_positive_arr",
   "prob_infected_detected", "prob_neighbor_traced", "prob_exposed_detected",
   "quarantine_neighbors", "test_neighbors", "test_delay_time", "steps_per_day",
   "adj_mat"]

/-- The positional argument list of the testing_step call in the simulation
driver (main.py line 127), each argument named as written at the call site. -/
def main_testing_step_args : List String :=
  ["E_arr", "I_arr", "A_arr", "TP_arr", "T_result_left", "T_result_positive_arr",
   "prob_infected_detected_per_step", "config.PROB_NEIGHBOR_TRACED",
   "prob_exposed_detected_per_step", "config.QUARANTINE_NEIGHBORS",
   "config.TEST_NEIGHBORS", "config.TEST_DELAY_TIME", "adj_mat",
   "config.STEPS_PER_DAY"]

/-- C5 (code-bug evidence): the simulation driver passes its last two
testing_step arguments in swapped positions: the `steps_per_day` parameter
(position 12) receives the adjacency matrix and the `adj_mat` parameter
(position 13) receives the scalar `config.STEPS_PER_DAY`, so the contact
tracing inside the tick never receives the contact-graph adjacency matrix. -/
theorem testing_step_call_swapped_args :
    testing_step_params.get? 12 = some "steps_per_day" ∧
    testing_step_params.get? 13 = some "adj_mat" ∧
    main_testing_step_args.get? 12 = some "adj_mat" ∧
    main_testing_step_args.get? 13 = some "config.STEPS_PER_DAY" ∧
    main_testing_step_args.get? 12 ≠ some "config.STEPS_PER_DAY" :=
  ⟨rfl, rfl, rfl, rfl, by decide⟩

/-- C9 (amended): the simulation entry point performs no configuration
validation: for every configuration whatsoever (no constraint on probabilities,
durations, or N), it initializes the population state, snapshots it as the
first record, and runs the stepping loop (at least one tick plus the final
snapshot). -/
theorem simulation_no_validation {N : ℕ} (cfg : Config) (adj_mat : AdjMat N)
    (exposed_inds infected_inds : Finset (Fin N)) (aD iD : QArr N)
    (o : ℕ → Oracle N) (hms : 0 < cfg.maxSteps) :
    (simulation cfg adj_mat exposed_inds infected_inds aD iD o).head? =
      some (snapshot (init_states N cfg.probAsymptomatic exposed_inds
        infected_inds aD iD) ⟨0, 0, 0, 0⟩) ∧
    2 ≤ (simulation cfg adj_mat exposed_inds infected_inds aD iD o).length := by
  obtain ⟨m, hm⟩ : ∃ m, cfg.maxSteps = m + 1 :=
    ⟨cfg.maxSteps - 1, (Nat.succ_pred_eq_of_pos hms).symm⟩
  unfold simulation
  rw [hm]
  simp only [sim_loop]
  split
  · simp
  · simp

/-- A configuration with a probability outside [0,1] (probInfect = 2). -/
def invalidConfig : Config :=
  { sampleConfig with probInfect := 2, maxSteps := 1 }

/-- Counterexample to C9 as stated: at a configuration whose infection
probability 2 lies outside [0,1], the simulation entry point does not reject:
its first snapshot is of the freshly initialized population state and its last
snapshot is of the state after a full tick was executed. -/
theorem simulation_no_validation_counterexample :
    ¬(0 ≤ invalidConfig.probInfect ∧ invalidConfig.probInfect ≤ 1) ∧
    (simulation invalidConfig (fun _ _ => 0) {0} {1} (fun _ => 1/2) (fun _ => 5)
      (fun _ => sampleOracle 2)).head? =
      some (snapshot (init_states 2 invalidConfig.probAsymptomatic {0} {1}
        (fun _ => 1/2) (fun _ => 5)) ⟨0, 0, 0, 0⟩) ∧
    (simulation invalidConfig (fun _ _ => 0) {0} {1} (fun _ => 1/2) (fun _ => 5)
      (fun _ => sampleOracle 2)).getLast? =
      some (snapshot
        (tick invalidConfig (fun _ _ => 0) (sampleOracle 2)
          (init_states 2 invalidConfig.probAsymptomatic {0} {1}
            (fun _ => 1/2) (fun _ => 5))).1
        (tick invalidConfig (fun _ _ => 0) (sampleOracle 2)
          (init_states 2 invalidConfig.probAsymptomatic {0} {1}
            (fun _ => 1/2) (fun _ => 5))).2) := by
  refine ⟨by norm_num [invalidConfig, sampleConfig], ?_, ?_⟩ <;>
  · have hms : invalidConfig.maxSteps = 1 := rfl
    unfold simulation
    rw [hms]
    simp only [sim_loop]
    split <;> simp

/-- Witness for C9 (amended) at a concrete input. -/
theorem simulation_no_validation_witness :
    0 < sampleConfig.maxSteps ∧
    ((simulation sampleConfig (fun _ _ => 0) {0} {1} (fun _ => 1/2) (fun _ => 5)
        (fun _ => sampleOracle 2)).head? =
      some (snapshot (init_states 2 sampleConfig.probAsymptomatic {0} {1}
        (fun _ => 1/2) (fun _ => 5)) ⟨0, 0, 0, 0⟩) ∧
    2 ≤ (simulation sampleConfig (fun _ _ => 0) {0} {1} (fun _ => 1/2)
        (fun _ => 5) (fun _ => sampleOracle 2)).length) :=
  ⟨by decide,
    simulation_no_validation sampleConfig (fun _ _ => 0) {0} {1} (fun _ => 1/2)
      (fun _ => 5) (fun _ => sampleOracle 2) (by decide)⟩

/-- The `power_law_values` array of
Simulation_utilities.generate_power_law_degrees:
`1 / U**gamma - 1 + eps` with `eps = 1e-10`, over ℝ (real powers). -/
noncomputable def power_law_values (N : ℕ) (gamma : ℝ) (U : Fin N → ℝ) :
    Fin N → ℝ :=
  fun i => 1 / (U i) ^ gamma - 1 + 1 / 10 ^ 10

/-- `value_mean = np.mean(power_law_values)`. -/
noncomputable def value_mean (N : ℕ) (gamma : ℝ) (U : Fin N → ℝ) : ℝ :=
  (∑ i, power_law_values N gamma U i) / N

/-- `frac_degrees = min_degree + power_law_values / value_mean *
(mean_degree - min_degree)`. -/
noncomputable def frac_degrees (N : ℕ) (min_degree mean_degree gamma : ℝ)
    (U : Fin N → ℝ) : Fin N → ℝ :=
  fun i => min_degree +
    power_law_values N gamma U i / value_mean N gamma U *
      (mean_degree - min_degree)

/-- numpy `astype(int)` on floats: truncation toward zero. -/
noncomputable def trunc_toward_zero (x : ℝ) : ℤ :=
  if 0 ≤ x then ⌊x⌋ else ⌈x⌉

/-- Simulation_utilities.generate_power_law_degrees:
`frac_degrees.astype(int) + (np.random.random(N) < frac_degrees % 1)`, with
the round-up uniform draw passed as the oracle `V` (numpy `% 1` is `Int.fract`
on floats). -/
noncomputable def generate_power_law_degrees (N : ℕ)
    (min_degree mean_degree gamma : ℝ) (U V : Fin N → ℝ) : Fin N → ℤ :=
  fun i => trunc_toward_zero (frac_degrees N min_degree mean_degree gamma U i) +
    (if V i < Int.fract (frac_degrees N min_degree mean_degree gamma U i)
      then 1 else 0)

/-- C8 (amended): the degree sampler transforms the N uniform draws as
`X = U^(-gamma) - 1 + 1e-10` (the epsilon guards against a zero sample mean at
gamma = 0); the rescaled fractional degrees have sample mean exactly
`mean_degree`; and whenever a fractional degree is nonnegative (as always holds
for `0 ≤ min_degree ≤ mean_degree`), the integer conversion is floor plus a
round-up whose single uniform draw succeeds on a set of measure exactly the
fractional remainder, so the conditional expectation of the integer degree is
the fractional target. -/
theorem degree_sampler_amended (N : ℕ) (min_degree mean_degree gamma : ℝ)
    (U V : Fin N → ℝ) (hN : 0 < N) (hg : 0 ≤ gamma)
    (hU : ∀ i, 0 < U i ∧ U i ≤ 1) :
    (∀ i, power_law_values N gamma U i = (U i) ^ (-gamma) - 1 + 1 / 10 ^ 10) ∧
    ((∑ i, frac_degrees N min_degree mean_degree gamma U i) / N = mean_degree) ∧
    (∀ i, 0 ≤ frac_degrees N min_degree mean_degree gamma U i →
      (generate_power_law_degrees N min_degree mean_degree gamma U V i =
        ⌊frac_degrees N min_degree mean_degree gamma U i⌋ +
          (if V i < Int.fract (frac_degrees N min_degree mean_degree gamma U i)
            then 1 else 0)) ∧
      ((⌊frac_degrees N min_degree mean_degree gamma U i⌋ : ℝ) +
        (MeasureTheory.volume {v : ℝ | v ∈ Set.Ico (0:ℝ) 1 ∧
          v < Int.fract (frac_degrees N min_degree mean_degree gamma U i)}).toReal =
        frac_degrees N min_degree mean_degree gamma U i)) := by
  have hpos : ∀ i, 0 < power_law_values N gamma U i := by
    intro i
    have h1 : (U i) ^ gamma ≤ 1 := Real.rpow_le_one (hU i).1.le (hU i).2 hg
    have h0 : 0 < (U i) ^ gamma := Real.rpow_pos_of_pos (hU i).1 gamma
    have h2 : 1 ≤ 1 / (U i) ^ gamma := one_le_one_div h0 h1
    have heps : (0:ℝ) < 1 / 10 ^ 10 := by norm_num
    unfold power_law_values
    linarith
  refine ⟨?_, ?_, ?_⟩
  · intro i
    unfold power_law_values
    rw [Real.rpow_neg (hU i).1.le, one_div]
  · have hNe : Nonempty (Fin N) := ⟨⟨0, hN⟩⟩
    have hsum_pos : 0 < ∑ i, power_law_values N gamma U i :=
      Finset.sum_pos (fun i _ => hpos i) Finset.univ_nonempty
    have hS : (∑ i, power_law_values N gamma U i) ≠ 0 := ne_of_gt hsum_pos
    have hNne : (N:ℝ) ≠ 0 := Nat.cast_ne_zero.mpr hN.ne'
    unfold frac_degrees value_mean
    rw [Finset.sum_add_distrib, Finset.sum_const, Finset.card_univ,
      Fintype.card_fin]
    simp only [div_mul_eq_mul_div, ← Finset.sum_div, ← Finset.sum_mul]
    field_simp
    ring
  · intro i hfrac
    constructor
    · unfold generate_power_law_degrees trunc_toward_zero
      rw [if_pos hfrac]
    · have hset : {v : ℝ | v ∈ Set.Ico (0:ℝ) 1 ∧
          v < Int.fract (frac_degrees N min_degree mean_degree gamma U i)} =
          Set.Ico 0 (Int.fract (frac_degrees N min_degree mean_degree gamma U i)) := by
        ext v
        simp only [Set.mem_setOf_eq, Set.mem_Ico]
        constructor
        · rintro ⟨⟨h0, _⟩, h2⟩; exact ⟨h0, h2⟩
        · rintro ⟨h0, h2⟩
          exact ⟨⟨h0, h2.trans_le (Int.fract_lt_one _).le⟩, h2⟩
      rw [hset, Real.volume_Ico, sub_zero,
        ENNReal.toReal_ofReal (Int.fract_nonneg _)]
      exact Int.floor_add_fract _

/-- Counterexample to C8 as stated: at gamma = 0 and U = 1/2 the transform is
not `U^(-gamma) - 1` (the code adds 1e-10), and at min_degree = 0,
mean_degree = -1/2 the integer conversion is not floor-plus-round-up (the code
truncates toward zero: it yields 0 where flooring yields -1). -/
theorem degree_sampler_counterexample :
    power_law_values 1 0 (fun _ => 1/2) 0 ≠ ((1:ℝ)/2) ^ (-(0:ℝ)) - 1 ∧
    generate_power_law_degrees 1 0 (-(1/2)) 0 (fun _ => 1/2) (fun _ => 3/5) 0 ≠
      ⌊frac_degrees 1 0 (-(1/2)) 0 (fun _ => 1/2) 0⌋ +
        (if (fun _ : Fin 1 => (3/5:ℝ)) 0 <
            Int.fract (frac_degrees 1 0 (-(1/2)) 0 (fun _ => 1/2) 0)
          then 1 else 0) := by
  have hvals : power_law_values 1 0 (fun _ => 1/2) 0 = 1 / 10 ^ 10 := by
    unfold power_law_values
    rw [Real.rpow_zero]
    norm_num
  have hfrac : frac_degrees 1 0 (-(1/2)) 0 (fun _ => 1/2) 0 = -(1/2) := by
    unfold frac_degrees value_mean
    rw [Fin.sum_univ_one, hvals]
    norm_num
  constructor
  · rw [hvals, Real.rpow_neg (by norm_num), Real.rpow_zero]
    norm_num
  · unfold generate_power_law_degrees trunc_toward_zero
    rw [hfrac]
    have hfr : Int.fract (-(1/2) : ℝ) = 1/2 := by
      rw [Int.fract]
      norm_num
    rw [hfr]
    have hflo : ⌊(-(1/2) : ℝ)⌋ = -1 := by norm_num
    rw [hflo, if_neg (by norm_num : ¬(0:ℝ) ≤ -(1/2)),
      if_neg (by norm_num : ¬(3/5:ℝ) < 1/2)]
    have hceil : ⌈(-(1/2) : ℝ)⌉ = 0 := by norm_num
    rw [hceil]
    norm_num

/-- Witness for C8 (amended) at a concrete input: N = 1, min_degree = 2,
mean_degree = 20, gamma = 0, U = 1/2, V = 3/5. -/
theorem degree_sampler_amended_witness :
    (0 < 1) ∧ ((0:ℝ) ≤ 0) ∧
    (∀ i : Fin 1, 0 < (fun _ : Fin 1 => (1/2:ℝ)) i ∧
      (fun _ : Fin 1 => (1/2:ℝ)) i ≤ 1) ∧
    ((∀ i, power_law_values 1 0 (fun _ => 1/2) i =
        ((fun _ : Fin 1 => (1/2:ℝ)) i) ^ (-(0:ℝ)) - 1 + 1 / 10 ^ 10) ∧
      ((∑ i, frac_degrees 1 2 20 0 (fun _ => 1/2) i) / ((1:ℕ):ℝ) = 20) ∧
      (∀ i, 0 ≤ frac_degrees 1 2 20 0 (fun _ => 1/2) i →
        (generate_power_law_degrees 1 2 20 0 (fun _ => 1/2) (fun _ => 3/5) i =
          ⌊frac_degrees 1 2 20 0 (fun _ => 1/2) i⌋ +
            (if (fun _ : Fin 1 => (3/5:ℝ)) i <
                Int.fract (frac_degrees 1 2 20 0 (fun _ => 1/2) i)
              then 1 else 0)) ∧
        ((⌊frac_degrees 1 2 20 0 (fun _ => 1/2) i⌋ : ℝ) +
          (MeasureTheory.volume {v : ℝ | v ∈ Set.Ico (0:ℝ) 1 ∧
            v < Int.fract (frac_degrees 1 2 20 0 (fun _ => 1/2) i)}).toReal =
          frac_degrees 1 2 20 0 (fun _ => 1/2) i))) :=
  ⟨by norm_num, le_refl 0, fun i => by norm_num,
    degree_sampler_amended 1 2 20 0 (fun _ => 1/2) (fun _ => 3/5) (by norm_num)
      (le_refl 0) (fun i => by norm_num)⟩
